import Mathlib

/-!
Verification of the OpenScholar calendar cache pipeline
(os_calendar_cache.py): a shallow embedding of outage parsing,
classification into status buckets, notification rendering and the
write-temp/compare/commit change-detection skeleton of get_updates,
with theorems settling the specification's claims about them.
-/

deriving instance DecidableEq for Except

namespace OSCC

/-- Word character of the Python 2 ASCII regex class backslash-w used by
sanitize_text: letters, digits and underscore. -/
def isWordChar (c : Char) : Bool :=
  ('a' ≤ c && c ≤ 'z') || ('A' ≤ c && c ≤ 'Z') || ('0' ≤ c && c ≤ '9') || c == '_'

/-- Whitespace character of the Python 2 ASCII regex class backslash-s. -/
def isSpaceChar (c : Char) : Bool :=
  c == ' ' || c == '\t' || c == '\n' || c == '\r' || c == '\x0b' || c == '\x0c'

/-- Substitution sanitize_text performs (lines 655-662 of the source):
re.sub replaces each character outside the word-or-whitespace class by an
underscore, one character at a time. -/
def sanitize_text : List Char → List Char
  | [] => []
  | c :: rest => (if isWordChar c || isSpaceChar c then c else '_') :: sanitize_text rest

/-- Outage record as sort_outages and create_notifications consume it,
with the integer-typed time fields of the data model. -/
structure OutageRecord where
  title : String
  link : String
  start_time : Int
  end_time : Int
  mod_time : Int
  resolved : Bool
deriving DecidableEq, Repr

/-- Status bucket a classified record lands in. -/
inductive Bucket
  | active
  | completed
  | scheduled
deriving DecidableEq, Repr

/-- Predicate has_started of sort_outages: seconds_until_start is not positive. -/
def has_started (o : OutageRecord) (now : Int) : Bool :=
  decide (o.start_time - now ≤ 0)

/-- Predicate has_ended of sort_outages: seconds_until_end is not positive. -/
def has_ended (o : OutageRecord) (now : Int) : Bool :=
  decide (o.end_time - now ≤ 0)

/-- Predicate has_end_time of sort_outages: the end time is not the zero sentinel. -/
def has_end_time (o : OutageRecord) : Bool :=
  decide (o.end_time ≠ 0)

/-- Predicate within_future_scope of sort_outages. -/
def within_future_scope (o : OutageRecord) (now scope_ahead : Int) : Bool :=
  decide (o.start_time - now < scope_ahead)

/-- Predicate within_past_scope of sort_outages. -/
def within_past_scope (o : OutageRecord) (now scope_past : Int) : Bool :=
  decide (abs (o.end_time - now) < scope_past)

/-- Body of the sort_outages loop for one record (lines 686-773): the
invariant check followed by the active, completed, scheduled, drop chain.
Except.error models the raised exception, Option.none the drop branch. -/
def classify_outage (o : OutageRecord) (now scope_ahead scope_past : Int) :
    Except Unit (Option Bucket) :=
  if has_end_time o && (has_ended o now && !has_started o now) then
    Except.error ()
  else if (has_started o now && (!has_ended o now || !has_end_time o)) && !o.resolved then
    Except.ok (some Bucket.active)
  else if ((has_started o now && has_ended o now) || o.resolved) && within_past_scope o now scope_past then
    Except.ok (some Bucket.completed)
  else if (!has_started o now && !o.resolved) && within_future_scope o now scope_ahead then
    Except.ok (some Bucket.scheduled)
  else
    Except.ok none

/-- Buckets sort_outages returns. -/
structure Buckets where
  completed : List OutageRecord
  scheduled : List OutageRecord
  active : List OutageRecord
deriving DecidableEq, Repr

/-- Loop of sort_outages (lines 664-775) over a record list with a fixed
now: the exception aborts the whole call at the first violating record,
otherwise each record goes to its bucket in input order. -/
def sort_outages : List OutageRecord → Int → Int → Int → Except Unit Buckets
  | [], _, _, _ => Except.ok (Buckets.mk [] [] [])
  | o :: rest, now, scope_ahead, scope_past =>
    match classify_outage o now scope_ahead scope_past with
    | Except.error () => Except.error ()
    | Except.ok b =>
      match sort_outages rest now scope_ahead scope_past with
      | Except.error () => Except.error ()
      | Except.ok bs =>
        match b with
        | some Bucket.active =>
          Except.ok (Buckets.mk bs.completed bs.scheduled (o :: bs.active))
        | some Bucket.completed =>
          Except.ok (Buckets.mk (o :: bs.completed) bs.scheduled bs.active)
        | some Bucket.scheduled =>
          Except.ok (Buckets.mk bs.completed (o :: bs.scheduled) bs.active)
        | none => Except.ok bs

/-- Grace period check within_grace_period (lines 777-811): the cache
file's modification time is passed as an optional value, none when the
file does not exist. -/
def within_grace_period (cache_mtime : Option Int) (timeout now : Int) : Bool :=
  match cache_mtime with
  | none => true
  | some m => decide (m + timeout > now)

/-- C6: within_grace_period returns true when no cache file exists, and
otherwise returns true exactly when now is strictly before the cache
file's modification time plus the timeout; in particular an mtime of
now - 50 with timeout 100 yields true and an mtime of now - 150 with
timeout 100 yields false. -/
theorem c6_within_grace_period (m timeout now : Int) :
    within_grace_period none timeout now = true ∧
    within_grace_period (some m) timeout now = decide (now < m + timeout) ∧
    within_grace_period (some (now - 50)) 100 now = true ∧
    within_grace_period (some (now - 150)) 100 now = false := by
  refine ⟨rfl, rfl, ?_, ?_⟩ <;> simp [within_grace_period] <;> omega

/-- C9: sanitize_text preserves the length of its input and rewrites
exactly the positions holding a character that is neither a word
character nor whitespace, replacing each such character by an underscore
and keeping every other character unchanged. -/
theorem c9_sanitize_text (l : List Char) :
    (sanitize_text l).length = l.length ∧
    (∀ i : Nat, i < l.length →
      (sanitize_text l).getD i 'a' =
        (if isWordChar (l.getD i 'a') || isSpaceChar (l.getD i 'a')
         then l.getD i 'a' else '_')) := by
  induction l with
  | nil => exact ⟨rfl, fun i h => absurd h (by simp)⟩
  | cons c rest ih =>
    refine ⟨by simpa [sanitize_text] using ih.1, ?_⟩
    intro i h
    cases i with
    | zero => simp [sanitize_text]
    | succ j => simpa [sanitize_text] using ih.2 j (by simpa using h)

/-- Characterisation of classify_outage by propositional conditions over
the record's integer fields, in the priority order of the source chain. -/
theorem classify_outage_eq (o : OutageRecord) (now scope_ahead scope_past : Int) :
    classify_outage o now scope_ahead scope_past =
      (if o.end_time ≠ 0 ∧ o.end_time - now ≤ 0 ∧ ¬ o.start_time - now ≤ 0 then
        Except.error ()
      else if o.start_time - now ≤ 0 ∧ (¬ o.end_time - now ≤ 0 ∨ o.end_time = 0) ∧ o.resolved = false then
        Except.ok (some Bucket.active)
      else if ((o.start_time - now ≤ 0 ∧ o.end_time - now ≤ 0) ∨ o.resolved = true) ∧ abs (o.end_time - now) < scope_past then
        Except.ok (some Bucket.completed)
      else if (¬ o.start_time - now ≤ 0 ∧ o.resolved = false) ∧ o.start_time - now < scope_ahead then
        Except.ok (some Bucket.scheduled)
      else
        Except.ok none) := by
  unfold classify_outage
  by_cases h1 : o.start_time - now ≤ 0 <;>
  by_cases h2 : o.end_time - now ≤ 0 <;>
  by_cases h3 : o.end_time = 0 <;>
  by_cases h4 : o.resolved = true <;>
  by_cases h5 : abs (o.end_time - now) < scope_past <;>
  by_cases h6 : o.start_time - now < scope_ahead <;>
  simp [has_started, has_ended, has_end_time, within_past_scope, within_future_scope,
    h1, h2, h3, h4, h5, h6]

/-- C3: classification raises the invariant violation for a record exactly
when the record has a nonzero end time lying at or before now while its
start time lies strictly after now; over a record list, sort_outages
raises (and returns no buckets) exactly when some record of the list
satisfies that condition. -/
theorem c3_invariant_violation (now scope_ahead scope_past : Int) :
    (∀ o : OutageRecord,
      classify_outage o now scope_ahead scope_past = Except.error () ↔
        o.end_time ≠ 0 ∧ o.end_time ≤ now ∧ now < o.start_time) ∧
    (∀ l : List OutageRecord,
      sort_outages l now scope_ahead scope_past = Except.error () ↔
        ∃ o ∈ l, o.end_time ≠ 0 ∧ o.end_time ≤ now ∧ now < o.start_time) := by
  have hone : ∀ o : OutageRecord,
      classify_outage o now scope_ahead scope_past = Except.error () ↔
        o.end_time ≠ 0 ∧ o.end_time ≤ now ∧ now < o.start_time := by
    intro o
    rw [classify_outage_eq]
    constructor
    · intro h
      by_cases hc : o.end_time ≠ 0 ∧ o.end_time - now ≤ 0 ∧ ¬ o.start_time - now ≤ 0
      · exact ⟨hc.1, by omega, by omega⟩
      · rw [if_neg hc] at h
        split_ifs at h
    · intro h
      rw [if_pos ⟨h.1, by omega, by omega⟩]
  refine ⟨hone, ?_⟩
  intro l
  induction l with
  | nil => simp [sort_outages]
  | cons o rest ih =>
    constructor
    · intro h
      unfold sort_outages at h
      cases hc : classify_outage o now scope_ahead scope_past with
      | error u =>
        exact ⟨o, List.mem_cons_self o rest, (hone o).mp (by cases u; exact hc)⟩
      | ok b =>
        rw [hc] at h
        cases hr : sort_outages rest now scope_ahead scope_past with
        | error u =>
          rcases ih.mp (by cases u; exact hr) with ⟨w, hw, hwp⟩
          exact ⟨w, List.mem_cons_of_mem o hw, hwp⟩
        | ok bs =>
          rw [hr] at h
          cases b with
          | none => simp at h
          | some bk => cases bk <;> simp at h
    · rintro ⟨w, hw, hwp⟩
      unfold sort_outages
      rcases List.mem_cons.mp hw with hweq | hwrest
      · rw [hweq] at hwp
        rw [(hone o).mpr hwp]
      · cases hc : classify_outage o now scope_ahead scope_past with
        | error u => cases u; rfl
        | ok b =>
          rw [ih.mpr ⟨w, hwrest, hwp⟩]

/-- C2 (amended): for a record whose integer fields do not trigger the
invariant violation, sort_outages assigns the record by evaluating the
decision table in priority order with first match winning: active, else
completed, else scheduled, else dropped from every bucket; a violating
record aborts the run with the raised exception instead of being
assigned (see the counterexample). -/
theorem c2_decision_table (o : OutageRecord) (now scope_ahead scope_past : Int)
    (h : ¬ (o.end_time ≠ 0 ∧ o.end_time ≤ now ∧ now < o.start_time)) :
    sort_outages [o] now scope_ahead scope_past =
      Except.ok
        (if o.start_time - now ≤ 0 ∧ (¬ o.end_time - now ≤ 0 ∨ o.end_time = 0) ∧ o.resolved = false then
          Buckets.mk [] [] [o]
        else if ((o.start_time - now ≤ 0 ∧ o.end_time - now ≤ 0) ∨ o.resolved = true) ∧ abs (o.end_time - now) < scope_past then
          Buckets.mk [o] [] []
        else if (¬ o.start_time - now ≤ 0 ∧ o.resolved = false) ∧ o.start_time - now < scope_ahead then
          Buckets.mk [] [o] []
        else
          Buckets.mk [] [] []) := by
  have hne : ¬ (o.end_time ≠ 0 ∧ o.end_time - now ≤ 0 ∧ ¬ o.start_time - now ≤ 0) := by
    intro hc
    exact h ⟨hc.1, by omega, by omega⟩
  unfold sort_outages
  rw [classify_outage_eq, if_neg hne]
  split_ifs <;> rfl

/-- Witness record for the decision table: an unresolved outage that has
started and has a future end time. -/
def started_record : OutageRecord := OutageRecord.mk "t" "l" 0 5 0 false

/-- Witness for C2: the started, unresolved record with a future end time
lands in the active bucket, exactly as the decision table selects. -/
theorem c2_decision_table_witness :
    sort_outages [started_record] 3 10 10 =
      Except.ok (Buckets.mk [] [] [started_record]) := by
  rw [c2_decision_table started_record 3 10 10 (by decide)]
  decide

/-- Record of the C2 counterexample: resolved, not yet started, with a
nonzero end time that already passed. -/
def violating_record : OutageRecord := OutageRecord.mk "t" "l" 10 5 0 true

/-- C2 counterexample: on this record the claim's priority evaluation
rejects active and selects completed (its second line matches), yet
sort_outages raises the invariant violation and assigns no bucket at
all, so the claim's universal decision table is false on the code. -/
theorem c2_counterexample :
    sort_outages [violating_record] 7 100 100 = Except.error () ∧
    ((has_started violating_record 7 &&
        (!has_ended violating_record 7 || !has_end_time violating_record)) &&
      !violating_record.resolved) = false ∧
    (((has_started violating_record 7 && has_ended violating_record 7) ||
        violating_record.resolved) && within_past_scope violating_record 7 100) = true := by
  decide

/-- Membership in a bucket returned by sort_outages pins down the record's
classification result. -/
theorem sort_outages_mem_classify (now scope_ahead scope_past : Int)
    (l : List OutageRecord) :
    ∀ bs : Buckets, sort_outages l now scope_ahead scope_past = Except.ok bs →
      ∀ o : OutageRecord,
        (o ∈ bs.active →
          classify_outage o now scope_ahead scope_past = Except.ok (some Bucket.active)) ∧
        (o ∈ bs.completed →
          classify_outage o now scope_ahead scope_past = Except.ok (some Bucket.completed)) ∧
        (o ∈ bs.scheduled →
          classify_outage o now scope_ahead scope_past = Except.ok (some Bucket.scheduled)) := by
  induction l with
  | nil =>
    intro bs h o
    simp [sort_outages] at h
    rw [← h]
    simp
  | cons hd rest ih =>
    intro bs h o
    unfold sort_outages at h
    cases hc : classify_outage hd now scope_ahead scope_past with
    | error u => rw [hc] at h; cases u; simp at h
    | ok b =>
      rw [hc] at h
      cases hr : sort_outages rest now scope_ahead scope_past with
      | error u => rw [hr] at h; cases u; simp at h
      | ok bs0 =>
        rw [hr] at h
        have ihs := ih bs0 hr o
        cases b with
        | none =>
          simp at h
          rw [← h]
          exact ihs
        | some bk =>
          cases bk with
          | active =>
            simp at h
            rw [← h]
            refine ⟨?_, ihs.2.1, ihs.2.2⟩
            intro hm
            rcases List.mem_cons.mp hm with hme | hm0
            · rw [hme]; exact hc
            · exact ihs.1 hm0
          | completed =>
            simp at h
            rw [← h]
            refine ⟨ihs.1, ?_, ihs.2.2⟩
            intro hm
            rcases List.mem_cons.mp hm with hme | hm0
            · rw [hme]; exact hc
            · exact ihs.2.1 hm0
          | scheduled =>
            simp at h
            rw [← h]
            refine ⟨ihs.1, ihs.2.1, ?_⟩
            intro hm
            rcases List.mem_cons.mp hm with hme | hm0
            · rw [hme]; exact hc
            · exact ihs.2.2 hm0

/-- C8: whenever sort_outages returns buckets, the three buckets are
pairwise disjoint, so every record lies in at most one of them, and a
second evaluation on the same records and the same now yields the very
same buckets. -/
theorem c8_buckets_disjoint (l : List OutageRecord) (now scope_ahead scope_past : Int)
    (bs : Buckets) (h : sort_outages l now scope_ahead scope_past = Except.ok bs) :
    (∀ o : OutageRecord,
      ¬ (o ∈ bs.active ∧ o ∈ bs.completed) ∧
      ¬ (o ∈ bs.active ∧ o ∈ bs.scheduled) ∧
      ¬ (o ∈ bs.completed ∧ o ∈ bs.scheduled)) ∧
    sort_outages l now scope_ahead scope_past = Except.ok bs := by
  refine ⟨?_, h⟩
  intro o
  have hm := sort_outages_mem_classify now scope_ahead scope_past l bs h o
  refine ⟨?_, ?_, ?_⟩ <;> rintro ⟨ha, hb⟩
  · have h1 := hm.1 ha
    have h2 := hm.2.1 hb
    rw [h1] at h2
    simp at h2
  · have h1 := hm.1 ha
    have h2 := hm.2.2 hb
    rw [h1] at h2
    simp at h2
  · have h1 := hm.2.1 ha
    have h2 := hm.2.2 hb
    rw [h1] at h2
    simp at h2

/-- Concrete records of the C8 witness run. -/
def rec_active : OutageRecord := OutageRecord.mk "a" "la" 50 0 0 false

/-- Concrete completed record of the C8 witness run. -/
def rec_completed : OutageRecord := OutageRecord.mk "c" "lc" 50 90 0 false

/-- Concrete scheduled record of the C8 witness run. -/
def rec_scheduled : OutageRecord := OutageRecord.mk "s" "ls" 150 0 0 false

/-- Witness for C8: a three-record run lands one record in each bucket,
and the active record is in no other bucket. -/
theorem c8_buckets_disjoint_witness :
    sort_outages [rec_active, rec_completed, rec_scheduled] 100 1000 1000 =
      Except.ok (Buckets.mk [rec_completed] [rec_scheduled] [rec_active]) ∧
    ¬ (rec_active ∈ (Buckets.mk [rec_completed] [rec_scheduled] [rec_active]).active ∧
       rec_active ∈ (Buckets.mk [rec_completed] [rec_scheduled] [rec_active]).completed) := by
  have h : sort_outages [rec_active, rec_completed, rec_scheduled] 100 1000 1000 =
      Except.ok (Buckets.mk [rec_completed] [rec_scheduled] [rec_active]) := by decide
  exact ⟨h, ((c8_buckets_disjoint _ 100 1000 1000 _ h).1 rec_active).1⟩

/-- Dynamically typed value of the end_time field as parse_ical builds it:
iso_to_unixtime yields an int, while the sentinel branch of line 643
assigns a str. -/
inductive TimeVal
  | int (n : Int)
  | str (s : String)
deriving DecidableEq, Repr

/-- Record parse_ical appends for one VEVENT, end_time kept dynamically
typed as in the source. -/
structure ParsedOutage where
  end_time : TimeVal
  link : String
  mod_time : Int
  resolved : Bool
  start_time : Int
  title : String
deriving DecidableEq, Repr

/-- Assembly of one VEVENT record inside parse_ical (lines 615-651). The
three times arrive already converted to epoch integers by iso_to_unixtime
(dateutil, an external collaborator) and resolved is the is_resolved
outcome (regex over the description, an external collaborator); the title
is sanitized, and when the converted end time equals the converted start
time the end time is overwritten with the Python expression "0" * 10,
which is the ten-character string of zeros. -/
def parse_ical_event (end_time start_time mod_time : Int) (link title : String)
    (resolved : Bool) : ParsedOutage :=
  let sanitized := String.mk (sanitize_text title.data)
  let stored_end : TimeVal :=
    if end_time = start_time then TimeVal.str (String.mk (List.replicate 10 '0'))
    else TimeVal.int end_time
  ParsedOutage.mk stored_end link mod_time resolved start_time sanitized

/-- C1: at an event whose converted end time equals its converted start
time (both 1000 here), parse_ical stores the ten-character string of
zeros that "0" * 10 produces, a value distinct from the integer 0 the
specification's sentinel requires (and one that breaks the downstream
integer arithmetic and the end_time != 0 test of the other functions). -/
theorem c1_end_time_sentinel_is_a_string :
    (parse_ical_event 1000 1000 500 "http://x" "t" false).end_time =
      TimeVal.str "0000000000" ∧
    TimeVal.str "0000000000" ≠ TimeVal.int 0 := by
  decide

/-- Decimal digit value, none for a non-digit. -/
def digitVal (c : Char) : Option Nat :=
  if '0' ≤ c ∧ c ≤ '9' then some (c.toNat - '0'.toNat) else none

/-- Accumulating decimal parse over characters. -/
def parse_nat_go : List Char → Nat → Option Nat
  | [], acc => some acc
  | c :: rest, acc =>
    match digitVal c with
    | some d => parse_nat_go rest (10 * acc + d)
    | none => none

/-- Nonempty all-digit parse of a natural number. -/
def parse_nat : List Char → Option Nat
  | [] => none
  | l => parse_nat_go l 0

/-- Integer parse modelling the Python int() call on a plain config value:
an optional leading minus sign and then decimal digits. -/
def parse_int : List Char → Option Int
  | '-' :: rest => (parse_nat rest).map (fun n => -(n : Int))
  | l => (parse_nat l).map (fun n => (n : Int))

/-- Split of a character list at every colon, modelling the Python split
call on the States config values. -/
def split_colon : List Char → List (List Char)
  | [] => [[]]
  | c :: rest =>
    let r := split_colon rest
    if c = ':' then [] :: r
    else
      match r with
      | [] => [[c]]
      | h :: t => (c :: h) :: t

/-- Style triple a States config entry carries. -/
structure StateStyle where
  icon : String
  timeout : Int
  urgency : String
deriving DecidableEq, Repr

/-- Settings dictionary exactly as _get_settings (lines 75-107) builds it:
these are all the keys the conf file contributes; any other option in the
file is never read. -/
structure Settings where
  debug_level : String
  log_file : String
  resolved_pattern : String
  scope_ahead : Int
  scope_past : Int
  states : List (String × StateStyle)
  feed_url : String
  url_timeout : Int
  website_url : String
  working_directory : String
deriving DecidableEq, Repr

/-- Raw configuration file contents as ConfigParser exposes them:
(section, option, value) entries. -/
def RawConfig := List (String × String × String)

/-- Lookup of one option's value, modelling config.get. -/
def config_get : RawConfig → String → String → Option String
  | [], _, _ => none
  | (s, o, v) :: rest, sec, opt =>
    if s = sec ∧ o = opt then some v else config_get rest sec opt

/-- Lookup and integer conversion, modelling config.getint. -/
def config_getint (c : RawConfig) (sec opt : String) : Option Int :=
  match config_get c sec opt with
  | none => none
  | some v => parse_int v.data

/-- Parse of one icon:timeout:urgency States value, modelling the tuple
unpacking of line 100: exactly three colon-separated parts, the middle
one an integer. -/
def parse_state_style (v : String) : Option StateStyle :=
  match split_colon v.data with
  | [icon, t, urgency] =>
    match parse_int t with
    | some n => some (StateStyle.mk (String.mk icon) n (String.mk urgency))
    | none => none
  | _ => none

/-- Settings extraction of _get_settings (lines 75-107): reads exactly the
listed keys and the six States entries. -/
def get_settings (c : RawConfig) : Option Settings := do
  let debug_level ← config_get c "Debugging" "debug_level"
  let log_file ← config_get c "Debugging" "log_file"
  let resolved_pattern ← config_get c "Parsing" "resolved_pattern"
  let scope_ahead ← config_getint c "Parsing" "scope_ahead"
  let scope_past ← config_getint c "Parsing" "scope_past"
  let feed_url ← config_get c "Sources" "feed_url"
  let url_timeout ← config_getint c "Sources" "url_timeout"
  let website_url ← config_get c "Sources" "website_url"
  let working_directory ← config_get c "WorkingFiles" "working_directory"
  let active_style ← (config_get c "States" "active").bind parse_state_style
  let completed_style ← (config_get c "States" "completed").bind parse_state_style
  let default_style ← (config_get c "States" "default").bind parse_state_style
  let error_style ← (config_get c "States" "error").bind parse_state_style
  let none_style ← (config_get c "States" "none").bind parse_state_style
  let scheduled_style ← (config_get c "States" "scheduled").bind parse_state_style
  some (Settings.mk debug_level log_file resolved_pattern scope_ahead scope_past
    [("active", active_style), ("completed", completed_style),
     ("default", default_style), ("error", error_style),
     ("none", none_style), ("scheduled", scheduled_style)]
    feed_url url_timeout website_url working_directory)

/-- File system state: a full path maps to the byte content of the file
there, none when no file exists at that path. -/
def FS := String → Option String

/-- Writing a file: the path now holds the new content. -/
def fsWrite (fs : FS) (p b : String) : FS :=
  fun q => if q = p then some b else fs q

/-- Removing a file: the path now holds nothing. -/
def fsRemove (fs : FS) (p : String) : FS :=
  fun q => if q = p then none else fs q

/-- File operation a run performs, for the run trace. -/
inductive FileEvent
  | write (path : String)
  | compare (a b : String)
  | move (a b : String)
  | remove (path : String)
deriving DecidableEq, Repr

/-- Outcome of one get_updates run: the final file system, the
feed_updated flag, and the trace of file operations performed. -/
structure RunResult where
  fs : FS
  feed_updated : Bool
  trace : List FileEvent

/-- Cache file path of get_updates line 373: the working directory, the
sanitized feed url and the ics suffix. -/
def cache_path (s : Settings) : String :=
  s.working_directory ++ "/" ++ String.mk (sanitize_text s.feed_url.data) ++ ".ics"

/-- Notifications file path of get_updates line 374. -/
def notif_path (s : Settings) : String :=
  s.working_directory ++ "/notifications.xml"

/-- Temp file path of get_updates line 375. -/
def temp_path (s : Settings) : String :=
  s.working_directory ++ "/notifications-new.xml"

/-- Appending suffixes of equal length but different text yields
different strings. -/
theorem string_suffix_ne (a b s t : String) (hl : s.length = t.length)
    (hne : s ≠ t) : a ++ s ≠ b ++ t := by
  intro h
  apply hne
  have hd : a.data ++ s.data = b.data ++ t.data := congrArg String.data h
  have hl2 : s.data.length = t.data.length := hl
  exact congrArg String.mk ((List.append_inj' hd hl2).2)

/-- Notifications path and temp path never coincide: their fixed suffixes
have different lengths. -/
theorem notif_ne_temp (s : Settings) : notif_path s ≠ temp_path s := by
  unfold notif_path temp_path
  intro h
  have hlen := congrArg String.length h
  rw [String.length_append, String.length_append] at hlen
  have e1 : ("/notifications.xml" : String).length = 18 := rfl
  have e2 : ("/notifications-new.xml" : String).length = 22 := rfl
  rw [e1, e2] at hlen
  omega

/-- Notifications path and cache path never coincide: one ends in xml,
the other in ics. -/
theorem notif_ne_cache (s : Settings) : notif_path s ≠ cache_path s := by
  unfold notif_path cache_path
  have h1 : s.working_directory ++ "/notifications.xml" =
      (s.working_directory ++ "/notifications") ++ ".xml" := by
    rw [String.append_assoc]
    rfl
  rw [h1]
  exact string_suffix_ne _ _ ".xml" ".ics" rfl (by decide)

/-- Temp path and cache path never coincide: one ends in xml, the other
in ics. -/
theorem temp_ne_cache (s : Settings) : temp_path s ≠ cache_path s := by
  unfold temp_path cache_path
  have h1 : s.working_directory ++ "/notifications-new.xml" =
      (s.working_directory ++ "/notifications-new") ++ ".xml" := by
    rw [String.append_assoc]
    rfl
  rw [h1]
  exact string_suffix_ne _ _ ".xml" ".ics" rfl (by decide)

/-- Pipeline skeleton of get_updates (lines 349-432) together with
cache_feed (lines 132-172). The fetch outcome, the cache file's
modification time and the bytes the parse-sort-render chain hands to
notifications_to_xml for this run are parameters: network, the iCal
library and the XML serializer are external collaborators. Everything
else follows the source: on a successful fetch the cache file and then
the temp file are written, a missing notifications file forces
feed_updated, an existing one is compared byte for byte against the
temp file, an update moves the temp file onto the notifications file
and no update deletes the temp file; on a failed fetch within the grace
period the run reports no update (still deleting a stale temp file),
and past the grace period the run raises, modelled by Except.error. -/
def get_updates (s : Settings) (mtimeOf : String → Option Int) (now : Int)
    (fetch_ok : Bool) (feed_bytes rendered_bytes : String) (fs : FS) :
    Except Unit RunResult :=
  if fetch_ok then
    match fsWrite (fsWrite fs (cache_path s) feed_bytes) (temp_path s) rendered_bytes
        (notif_path s) with
    | none =>
      Except.ok (RunResult.mk
        (fsWrite
          (fsRemove (fsWrite (fsWrite fs (cache_path s) feed_bytes) (temp_path s) rendered_bytes)
            (temp_path s))
          (notif_path s) rendered_bytes)
        true
        [FileEvent.write (cache_path s), FileEvent.write (temp_path s),
         FileEvent.move (temp_path s) (notif_path s)])
    | some old =>
      if rendered_bytes = old then
        Except.ok (RunResult.mk
          (fsRemove (fsWrite (fsWrite fs (cache_path s) feed_bytes) (temp_path s) rendered_bytes)
            (temp_path s))
          false
          [FileEvent.write (cache_path s), FileEvent.write (temp_path s),
           FileEvent.compare (temp_path s) (notif_path s), FileEvent.remove (temp_path s)])
      else
        Except.ok (RunResult.mk
          (fsWrite
            (fsRemove (fsWrite (fsWrite fs (cache_path s) feed_bytes) (temp_path s) rendered_bytes)
              (temp_path s))
            (notif_path s) rendered_bytes)
          true
          [FileEvent.write (cache_path s), FileEvent.write (temp_path s),
           FileEvent.compare (temp_path s) (notif_path s),
           FileEvent.move (temp_path s) (notif_path s)])
  else if within_grace_period (mtimeOf (cache_path s)) s.url_timeout now then
    match fs (temp_path s) with
    | some _ =>
      Except.ok (RunResult.mk (fsRemove fs (temp_path s)) false
        [FileEvent.remove (temp_path s)])
    | none => Except.ok (RunResult.mk fs false [])
  else
    Except.error ()

/-- C7: on a run whose fetch succeeds and where no notifications file
exists yet at the output path, get_updates unconditionally reports
feed_updated and publishes the freshly rendered temp bytes as the new
notifications file (moving the temp file away), whatever those bytes
are. -/
theorem c7_first_run_publishes (s : Settings) (mtimeOf : String → Option Int)
    (now : Int) (feed_bytes rendered_bytes : String) (fs : FS)
    (h : fs (notif_path s) = none) :
    ∃ r : RunResult,
      get_updates s mtimeOf now true feed_bytes rendered_bytes fs = Except.ok r ∧
      r.feed_updated = true ∧
      r.fs (notif_path s) = some rendered_bytes ∧
      r.fs (temp_path s) = none := by
  have hnt : notif_path s ≠ temp_path s := notif_ne_temp s
  have hnc : notif_path s ≠ cache_path s := notif_ne_cache s
  have hscrut : fsWrite (fsWrite fs (cache_path s) feed_bytes) (temp_path s) rendered_bytes
      (notif_path s) = none := by
    unfold fsWrite
    rw [if_neg hnt, if_neg hnc, h]
  have run_eq : get_updates s mtimeOf now true feed_bytes rendered_bytes fs =
      Except.ok (RunResult.mk
        (fsWrite
          (fsRemove (fsWrite (fsWrite fs (cache_path s) feed_bytes) (temp_path s) rendered_bytes)
            (temp_path s))
          (notif_path s) rendered_bytes)
        true
        [FileEvent.write (cache_path s), FileEvent.write (temp_path s),
         FileEvent.move (temp_path s) (notif_path s)]) := by
    unfold get_updates
    rw [if_pos rfl, hscrut]
  refine ⟨_, run_eq, rfl, ?_, ?_⟩
  · show fsWrite _ (notif_path s) rendered_bytes (notif_path s) = some rendered_bytes
    unfold fsWrite
    rw [if_pos rfl]
  · show fsWrite _ (notif_path s) rendered_bytes (temp_path s) = none
    unfold fsWrite fsRemove
    rw [if_neg (Ne.symm hnt), if_pos rfl]

/-- Demo settings of the concrete runs: exactly what get_settings builds
from the demo configuration below. -/
def demo_settings : Settings :=
  Settings.mk "DEBUG" "/var/log/occ.log" "RESOLVED" 86400 86400
    [("active", StateStyle.mk "ia" 5000 "critical"),
     ("completed", StateStyle.mk "ic" 5000 "normal"),
     ("default", StateStyle.mk "id" 5000 "normal"),
     ("error", StateStyle.mk "ie" 5000 "critical"),
     ("none", StateStyle.mk "io" 5000 "low"),
     ("scheduled", StateStyle.mk "is" 5000 "normal")]
    "http://cal.example/feed" 100 "http://www.example" "/wd"

/-- Witness for C7: a first run over an empty file system publishes the
rendered bytes. -/
theorem c7_first_run_publishes_witness :
    ∃ r : RunResult,
      get_updates demo_settings (fun _ => none) 0 true "feed" "rendered" (fun _ => none) =
        Except.ok r ∧
      r.feed_updated = true ∧
      r.fs (notif_path demo_settings) = some "rendered" ∧
      r.fs (temp_path demo_settings) = none :=
  c7_first_run_publishes demo_settings (fun _ => none) 0 "feed" "rendered" (fun _ => none) rfl

/-- C5 (amended): when the rendered notification bytes are byte-for-byte
identical to the previously published notifications file, the run
reports no change, leaves the published file untouched byte for byte,
and always deletes the temp file; no preserve-versions option exists in
the settings, so nothing ever retains it (see the counterexample). -/
theorem c5_no_change_deletes_temp (s : Settings) (mtimeOf : String → Option Int)
    (now : Int) (feed_bytes published : String) (fs : FS)
    (h : fs (notif_path s) = some published) :
    ∃ r : RunResult,
      get_updates s mtimeOf now true feed_bytes published fs = Except.ok r ∧
      r.feed_updated = false ∧
      r.fs (notif_path s) = some published ∧
      r.fs (temp_path s) = none := by
  have hnt : notif_path s ≠ temp_path s := notif_ne_temp s
  have hnc : notif_path s ≠ cache_path s := notif_ne_cache s
  have hscrut : fsWrite (fsWrite fs (cache_path s) feed_bytes) (temp_path s) published
      (notif_path s) = some published := by
    unfold fsWrite
    rw [if_neg hnt, if_neg hnc, h]
  have run_eq : get_updates s mtimeOf now true feed_bytes published fs =
      Except.ok (RunResult.mk
        (fsRemove (fsWrite (fsWrite fs (cache_path s) feed_bytes) (temp_path s) published)
          (temp_path s))
        false
        [FileEvent.write (cache_path s), FileEvent.write (temp_path s),
         FileEvent.compare (temp_path s) (notif_path s), FileEvent.remove (temp_path s)]) := by
    unfold get_updates
    rw [if_pos rfl, hscrut]
    simp
  refine ⟨_, run_eq, rfl, ?_, ?_⟩
  · show fsRemove _ (temp_path s) (notif_path s) = some published
    unfold fsRemove
    rw [if_neg hnt]
    exact hscrut
  · show fsRemove _ (temp_path s) (temp_path s) = none
    unfold fsRemove
    rw [if_pos rfl]

/-- Demo file system: the published notifications file already holds the
bytes this run renders again. -/
def demo_fs : FS :=
  fun p => if p = notif_path demo_settings then some "published" else none

/-- Witness for C5: the unchanged run over the demo file system reports
no change and deletes the temp file. -/
theorem c5_no_change_deletes_temp_witness :
    ∃ r : RunResult,
      get_updates demo_settings (fun _ => none) 0 true "feed" "published" demo_fs =
        Except.ok r ∧
      r.feed_updated = false ∧
      r.fs (notif_path demo_settings) = some "published" ∧
      r.fs (temp_path demo_settings) = none :=
  c5_no_change_deletes_temp demo_settings (fun _ => none) 0 "feed" "published" demo_fs
    (by unfold demo_fs; rw [if_pos rfl])

/-- Demo configuration: all the keys _get_settings reads, plus a
preserve_versions entry that nothing in the code ever reads. -/
def preserve_config : RawConfig :=
  [("Debugging", "debug_level", "DEBUG"),
   ("Debugging", "log_file", "/var/log/occ.log"),
   ("Parsing", "resolved_pattern", "RESOLVED"),
   ("Parsing", "scope_ahead", "86400"),
   ("Parsing", "scope_past", "86400"),
   ("Sources", "feed_url", "http://cal.example/feed"),
   ("Sources", "url_timeout", "100"),
   ("Sources", "website_url", "http://www.example"),
   ("WorkingFiles", "working_directory", "/wd"),
   ("WorkingFiles", "preserve_versions", "true"),
   ("States", "active", "ia:5000:critical"),
   ("States", "completed", "ic:5000:normal"),
   ("States", "default", "id:5000:normal"),
   ("States", "error", "ie:5000:critical"),
   ("States", "none", "io:5000:low"),
   ("States", "scheduled", "is:5000:normal")]

/-- C5 counterexample: the configuration sets preserve_versions to true,
get_settings builds settings that carry no such option, and the
unchanged run still deletes the temp file instead of retaining it, so
the retention clause of the claim is false on the code. -/
theorem c5_counterexample :
    config_get preserve_config "WorkingFiles" "preserve_versions" = some "true" ∧
    get_settings preserve_config = some demo_settings ∧
    (get_updates demo_settings (fun _ => none) 0 true "feed" "published" demo_fs).map
        (fun r => (r.feed_updated, r.fs (temp_path demo_settings),
          r.fs (notif_path demo_settings))) =
      Except.ok (false, none, some "published") := by
  refine ⟨by decide, by decide, by decide⟩

/-- Whether a file event is a snapshot comparison. -/
def is_compare : FileEvent → Bool
  | FileEvent.compare _ _ => true
  | _ => false

/-- Number of snapshot comparisons in a run trace. -/
def compare_count (tr : List FileEvent) : Nat :=
  (tr.filter is_compare).length

/-- Whether an event, if it is a comparison, compares exactly the given
temp path against the given notifications path. -/
def compare_only (temp notif : String) : FileEvent → Bool
  | FileEvent.compare a b => decide (a = temp) && decide (b = notif)
  | _ => true

/-- Whether a run outcome performed at most one snapshot comparison, and
only between the temp file and the notifications file. -/
def trace_check (s : Settings) (res : Except Unit RunResult) : Bool :=
  match res with
  | Except.error _ => true
  | Except.ok r =>
    decide (compare_count r.trace ≤ 1) &&
    r.trace.all (compare_only (temp_path s) (notif_path s))

/-- C4 (amended): every run of get_updates applies the byte comparison at
most once, always between the temp notifications file and the published
notifications file: there is no second, parsed-outages snapshot diff in
the pipeline (outages_to_xml is never invoked by get_updates). -/
theorem c4_single_snapshot_diff (s : Settings) (mtimeOf : String → Option Int)
    (now : Int) (fetch_ok : Bool) (feed_bytes rendered_bytes : String) (fs : FS) :
    trace_check s (get_updates s mtimeOf now fetch_ok feed_bytes rendered_bytes fs) = true := by
  unfold get_updates
  by_cases hf : fetch_ok = true
  · rw [if_pos hf]
    cases hm : fsWrite (fsWrite fs (cache_path s) feed_bytes) (temp_path s) rendered_bytes
        (notif_path s) with
    | none => simp [trace_check, compare_count, is_compare, compare_only]
    | some old =>
      by_cases he : rendered_bytes = old
      · simp [trace_check, compare_count, is_compare, compare_only, he]
      · simp [trace_check, compare_count, is_compare, compare_only, he]
  · rw [if_neg hf]
    by_cases hg : within_grace_period (mtimeOf (cache_path s)) s.url_timeout now = true
    · rw [if_pos hg]
      cases ht : fs (temp_path s) with
      | some b => simp [trace_check, compare_count, is_compare, compare_only]
      | none => simp [trace_check, compare_count, is_compare, compare_only]
    · rw [if_neg hg]
      rfl

/-- C4 counterexample: the complete file-operation trace of a successful
run over an already published, different snapshot holds exactly one
comparison, between the temp file and the notifications file — not the
two independent snapshot comparisons the claim asserts per run. -/
theorem c4_counterexample :
    (get_updates demo_settings (fun _ => none) 0 true "feed" "new" demo_fs).map
        (fun r => r.trace) =
      Except.ok
        [FileEvent.write "/wd/http___cal_example_feed.ics",
         FileEvent.write "/wd/notifications-new.xml",
         FileEvent.compare "/wd/notifications-new.xml" "/wd/notifications.xml",
         FileEvent.move "/wd/notifications-new.xml" "/wd/notifications.xml"] ∧
    compare_count
        [FileEvent.write "/wd/http___cal_example_feed.ics",
         FileEvent.write "/wd/notifications-new.xml",
         FileEvent.compare "/wd/notifications-new.xml" "/wd/notifications.xml",
         FileEvent.move "/wd/notifications-new.xml" "/wd/notifications.xml"] = 1 := by
  refine ⟨by decide, by decide⟩

/-- Widget dictionary create_notifications appends per record. -/
structure GuiEntry where
  icon : String
  tooltip : String
  timeout : Int
  title : String
  urgency : String
deriving DecidableEq, Repr

/-- GUI and console output lists of create_notifications. -/
structure Output where
  gui : List GuiEntry
  console : List String
deriving DecidableEq, Repr

/-- Console colour decoration functions of the termcolor collaborator, in
the exact variants create_notifications invokes: the blue link colour,
yellow bold, plain bold, green, and red bold. -/
structure Deco where
  blue : String → String
  yellow_bold : String → String
  bold : String → String
  green : String → String
  red_bold : String → String

/-- Fixed console call-to-action line of create_notifications. -/
def cli_text : String := "Please see the following URL for more information:"

/-- Fixed widget call-to-action line of create_notifications. -/
def gui_text : String := "Right click the outages toolbar icon for more information."

/-- Widget entry for one completed outage (lines 212-224). -/
def gui_completed (st : StateStyle) (o : OutageRecord) : GuiEntry :=
  GuiEntry.mk st.icon (o.title ++ " is now complete." ++ "\n" ++ gui_text)
    st.timeout o.title st.urgency

/-- Console entry for one completed outage (lines 235-238). -/
def console_completed (deco : Deco) (o : OutageRecord) : String :=
  deco.yellow_bold (o.title ++ " is now complete.") ++ "\n" ++ cli_text ++ "\n\t" ++
    deco.blue o.link ++ "\n"

/-- Widget entry for one scheduled outage (lines 254-267). -/
def gui_scheduled (st : StateStyle) (fmt : Int → String) (o : OutageRecord) : GuiEntry :=
  GuiEntry.mk st.icon
    (o.title ++ " is scheduled to start on " ++ fmt o.start_time ++ "\n" ++ o.link ++
      "\n" ++ gui_text)
    st.timeout o.title st.urgency

/-- Console entry for one scheduled outage (lines 278-282). -/
def console_scheduled (deco : Deco) (fmt : Int → String) (o : OutageRecord) : String :=
  deco.bold o.title ++ " is scheduled to start on " ++ deco.green (fmt o.start_time) ++ "." ++
    "\n" ++ cli_text ++ "\n\t" ++ deco.blue o.link ++ "\n"

/-- End-time clause of one active outage (lines 299-302): present only
when the end time is not the zero sentinel. -/
def active_until (fmt : Int → String) (o : OutageRecord) : String :=
  if o.end_time ≠ 0 then " until " ++ fmt o.end_time else ""

/-- Widget entry for one active outage (lines 304-316). -/
def gui_active (st : StateStyle) (fmt : Int → String) (o : OutageRecord) : GuiEntry :=
  GuiEntry.mk st.icon
    (o.title ++ " is in progress" ++ active_until fmt o ++ "." ++ "\n" ++ gui_text)
    st.timeout o.title st.urgency

/-- Console entry for one active outage (lines 327-331). -/
def console_active (deco : Deco) (fmt : Int → String) (o : OutageRecord) : String :=
  deco.bold o.title ++ deco.red_bold (" is in progress" ++ active_until fmt o ++ ".") ++
    "\n" ++ cli_text ++ "\n\t" ++ deco.blue o.link ++ "\n"

/-- Renderer create_notifications (lines 174-338): three loops over the
completed, scheduled and active buckets in that order, each appending one
widget entry and one console entry per record to the shared output. The
date formatter (local time strftime) and the colour decorations are
external collaborators passed in; the styles function is the states
dictionary of the settings. -/
def create_notifications (states : String → StateStyle) (fmt : Int → String)
    (deco : Deco) (sorted : Buckets) : Output :=
  let out1 := sorted.completed.foldl
    (fun acc o => Output.mk (acc.gui ++ [gui_completed (states "completed") o])
      (acc.console ++ [console_completed deco o]))
    (Output.mk [] [])
  let out2 := sorted.scheduled.foldl
    (fun acc o => Output.mk (acc.gui ++ [gui_scheduled (states "scheduled") fmt o])
      (acc.console ++ [console_scheduled deco fmt o]))
    out1
  sorted.active.foldl
    (fun acc o => Output.mk (acc.gui ++ [gui_active (states "active") fmt o])
      (acc.console ++ [console_active deco fmt o]))
    out2

/-- Folding one bucket appends exactly one widget entry and one console
entry per record, in bucket order, after whatever was accumulated. -/
theorem foldl_output (f : OutageRecord → GuiEntry) (g : OutageRecord → String)
    (l : List OutageRecord) (acc : Output) :
    l.foldl (fun a o => Output.mk (a.gui ++ [f o]) (a.console ++ [g o])) acc =
      Output.mk (acc.gui ++ l.map f) (acc.console ++ l.map g) := by
  induction l generalizing acc with
  | nil => simp
  | cons o rest ih =>
    simp only [List.foldl_cons, List.map_cons, ih]
    simp

/-- C10: the renderer emits equally long gui and console lists holding
exactly one entry per bucketed record, ordered with all completed
records first, then all scheduled records, then all active records,
each group in its bucket's internal order. -/
theorem c10_renderer_shape (states : String → StateStyle) (fmt : Int → String)
    (deco : Deco) (sorted : Buckets) :
    (create_notifications states fmt deco sorted).gui =
      sorted.completed.map (gui_completed (states "completed")) ++
      sorted.scheduled.map (gui_scheduled (states "scheduled") fmt) ++
      sorted.active.map (gui_active (states "active") fmt) ∧
    (create_notifications states fmt deco sorted).console =
      sorted.completed.map (console_completed deco) ++
      sorted.scheduled.map (console_scheduled deco fmt) ++
      sorted.active.map (console_active deco fmt) ∧
    (create_notifications states fmt deco sorted).gui.length =
      sorted.completed.length + sorted.scheduled.length + sorted.active.length ∧
    (create_notifications states fmt deco sorted).console.length =
      (create_notifications states fmt deco sorted).gui.length := by
  have hg : create_notifications states fmt deco sorted =
      Output.mk
        (sorted.completed.map (gui_completed (states "completed")) ++
          sorted.scheduled.map (gui_scheduled (states "scheduled") fmt) ++
          sorted.active.map (gui_active (states "active") fmt))
        (sorted.completed.map (console_completed deco) ++
          sorted.scheduled.map (console_scheduled deco fmt) ++
          sorted.active.map (console_active deco fmt)) := by
    unfold create_notifications
    rw [foldl_output, foldl_output, foldl_output]
    simp
  rw [hg]
  refine ⟨rfl, rfl, ?_, ?_⟩ <;> simp
  omega

end OSCC
